import Mathlib

/-!
Verification of the data-extraction and capture pipeline of the
pixi-devtools-cli injection script (src/inject.ts).

The script is shallowly embedded: each JavaScript function of the injected
script is translated into a Lean definition over explicit data types.
JavaScript strings are modelled as Lean strings (for tags and keys) or as
character lists (for text payloads where length reasoning is needed);
JavaScript numbers appearing in timing arithmetic are modelled as rationals;
the dynamic presence or absence of an object field is modelled with Option
or an explicit Bool flag.
-/

namespace PixiCli

/-- Properties of one display object as read by the injected script:
the duck-typing fields consulted by getPixiType, the two devtool ignore
flags, the effect / mask attachments counted by collectStats, and the text
payload read for text-like nodes.  Fields of the source node that the
script merely copies verbatim into the snapshot (numeric transform,
visibility, z-order, and so on) are not modelled, as no claim depends on
them.  The field effects models a truthy effects array of the given length
(the non-array truthy case of the source behaves like a one-element
array for the purposes of the stats counters). -/
structure NodeProps where
  renderPipeId : Option String
  hasGotoAndPlay : Bool
  hasStop : Bool
  hasPlay : Bool
  hasChildrenField : Bool
  hasParentField : Bool
  devtoolIgnore : Bool
  devtoolIgnoreChildren : Bool
  effects : Option Nat
  mask : Bool
  text : Option (List Char)
deriving DecidableEq

/-- A display object: its observed properties together with its list of
children (empty when the object has no children field). -/
inductive Container where
| mk (props : NodeProps) (children : List Container)

def Container.props : Container → NodeProps
| .mk p _ => p

def Container.childList : Container → List Container
| .mk _ cs => cs

/-- The ordered battery of (tag, structural predicate) pairs of getPixiType
in src/inject.ts.  A predicate of the form renderPipeId present and equal
to a literal is modelled by equality with some literal. -/
def checks : List (String × (Container → Bool)) :=
  [ ("BitmapText", fun c => c.props.renderPipeId == some "BitmapText"),
    ("HTMLText", fun c => c.props.renderPipeId == some "htmlText"),
    ("Text", fun c => c.props.renderPipeId == some "text"),
    ("Mesh", fun c => c.props.renderPipeId == some "mesh"),
    ("Graphics", fun c => c.props.renderPipeId == some "graphics"),
    ("AnimatedSprite", fun c => c.props.hasGotoAndPlay && c.props.hasStop && c.props.hasPlay),
    ("NineSliceSprite", fun c => c.props.renderPipeId == some "nineSliceSprite"),
    ("TilingSprite", fun c => c.props.renderPipeId == some "tilingSprite"),
    ("Sprite", fun c => c.props.renderPipeId == some "sprite"),
    ("ParticleContainer", fun c => c.props.renderPipeId == some "particle"),
    ("Container", fun c => c.props.hasChildrenField && c.props.hasParentField) ]

/-- getPixiType of src/inject.ts: return the tag of the first matching
predicate in the ordered list, falling through to "Unknown". -/
def getPixiType (c : Container) : String :=
  match checks.find? (fun tc => tc.2 c) with
  | some tc => tc.1
  | none => "Unknown"

/-- The first ten entries of the check list: every tag more specific than
the generic container fallback. -/
def specificChecks : List (String × (Container → Bool)) := checks.take 10

/-- All tags getPixiType can return. -/
def typeTags : List String :=
  [ "BitmapText", "HTMLText", "Text", "Mesh", "Graphics", "AnimatedSprite",
    "NineSliceSprite", "TilingSprite", "Sprite", "ParticleContainer",
    "Container", "Unknown" ]

/-- One node of the scene snapshot produced by buildSceneGraph.  Only the
fields the claims are about are modelled: the classified type, the
(possibly truncated) text payload, the traversal depth and the child
list. -/
inductive SGNode where
| mk (type : String) (text : Option (List Char)) (depth : Nat) (children : List SGNode)

def SGNode.type : SGNode → String
| .mk t _ _ _ => t

def SGNode.text : SGNode → Option (List Char)
| .mk _ t _ _ => t

def SGNode.depth : SGNode → Nat
| .mk _ _ d _ => d

def SGNode.childList : SGNode → List SGNode
| .mk _ _ _ cs => cs

mutual

/-- buildSceneGraph of src/inject.ts.  A node flagged devtoolIgnore yields
null (modelled none); the text payload is set, truncated to 100 characters,
exactly for the text-like types; children are walked only when the node has
a children field and is not flagged devtoolIgnoreChildren, and null child
results are dropped. -/
def buildSceneGraph : Container → Nat → Option SGNode
| .mk p kids, depth =>
  if p.devtoolIgnore then none
  else
    let type := getPixiType (.mk p kids)
    let text : Option (List Char) :=
      if type = "Text" ∨ type = "BitmapText" ∨ type = "HTMLText" then
        p.text.map (fun t => t.take 100)
      else none
    let children :=
      if p.hasChildrenField && !p.devtoolIgnoreChildren then
        buildSceneGraphList kids (depth + 1)
      else []
    some (.mk type text depth children)
termination_by structural c _ => c

def buildSceneGraphList : List Container → Nat → List SGNode
| [], _ => []
| c :: cs, depth =>
  match buildSceneGraph c depth with
  | some n => n :: buildSceneGraphList cs depth
  | none => buildSceneGraphList cs depth
termination_by structural l _ => l

end

/-- The toLowerCase call of the script, as a character-wise map (the tags
being lowered are plain ASCII). -/
def jsToLower (s : String) : String := ⟨s.data.map Char.toLower⟩

/-- A stats object, modelled as an association list from key to count in
insertion order, exactly as the script grows a plain object. -/
def bump : List (String × Nat) → String → Nat → List (String × Nat)
| [], k, n => [(k, n)]
| (k', v) :: rest, k, n =>
  if k' = k then (k', v + n) :: rest else (k', v) :: bump rest k n

/-- Read a counter from a stats object; a missing key reads as 0. -/
def getCount : List (String × Nat) → String → Nat
| [], _ => 0
| (k', v) :: rest, k => if k' = k then v else getCount rest k

/-- The straight-line counter updates collectStats performs for one visited
node: bump the lower-cased type key and the total, then add the effect and
mask counters when those attachments are present. -/
def bumpNodeCounters (p : NodeProps) (type : String) (stats : List (String × Nat)) :
    List (String × Nat) :=
  let s1 := bump stats (jsToLower type) 1
  let s2 := bump s1 "total" 1
  let s3 := match p.effects with
    | some n => bump s2 "filters" n
    | none => s2
  if p.mask then bump s3 "masks" 1 else s3

mutual

/-- collectStats of src/inject.ts: bump the per-type counter and the total,
add the effect and mask counters, then recurse into the children unless the
node is flagged devtoolIgnoreChildren.  Note that, unlike buildSceneGraph,
this function never consults the devtoolIgnore flag. -/
def collectStats : Container → List (String × Nat) → List (String × Nat)
| .mk p kids, stats =>
  let s4 := bumpNodeCounters p (getPixiType (.mk p kids)) stats
  if p.hasChildrenField && !p.devtoolIgnoreChildren then
    collectStatsList kids s4
  else s4
termination_by structural c _ => c

def collectStatsList : List Container → List (String × Nat) → List (String × Nat)
| [], stats => stats
| c :: cs, stats => collectStatsList cs (collectStats c stats)
termination_by structural l _ => l

end

mutual

/-- Number of nodes of a snapshot tree. -/
def sgSize : SGNode → Nat
| .mk _ _ _ cs => 1 + sgSizeList cs
termination_by structural n => n

def sgSizeList : List SGNode → Nat
| [] => 0
| n :: ns => sgSize n + sgSizeList ns
termination_by structural l => l

end

/-- Size of an optional snapshot; null counts as zero nodes. -/
def sgSizeOpt : Option SGNode → Nat
| some n => sgSize n
| none => 0

mutual

/-- Number of nodes the snapshot keeps: a node flagged devtoolIgnore is
dropped with its whole subtree, and the subtree below a node flagged
devtoolIgnoreChildren is dropped while the node itself is kept.  Stated
from the traversal rules of the walker, independently of the tree it
builds. -/
def specSnapshotCount : Container → Nat
| .mk p kids =>
  if p.devtoolIgnore then 0
  else 1 + (if p.hasChildrenField && !p.devtoolIgnoreChildren then
      specSnapshotCountList kids else 0)
termination_by structural c => c

def specSnapshotCountList : List Container → Nat
| [] => 0
| c :: cs => specSnapshotCount c + specSnapshotCountList cs
termination_by structural l => l

end

mutual

/-- Number of nodes the stats collector counts: every visited node counts,
the devtoolIgnore flag is never consulted, and only the subtree below a
node flagged devtoolIgnoreChildren is pruned. -/
def specStatsCount : Container → Nat
| .mk p kids =>
  1 + (if p.hasChildrenField && !p.devtoolIgnoreChildren then
      specStatsCountList kids else 0)
termination_by structural c => c

def specStatsCountList : List Container → Nat
| [] => 0
| c :: cs => specStatsCount c + specStatsCountList cs
termination_by structural l => l

end

/-! ### Stats-object lemmas -/

theorem getCount_bump_self (s : List (String × Nat)) (k : String) (n : Nat) :
    getCount (bump s k n) k = getCount s k + n := by
  induction s with
  | nil => simp [bump, getCount]
  | cons kv rest ih =>
    obtain ⟨ka, v⟩ := kv
    by_cases h : ka = k
    · subst h; simp [bump, getCount]
    · simp [bump, getCount, h, ih]

theorem getCount_bump_ne (s : List (String × Nat)) (kb kr : String) (n : Nat)
    (h : kb ≠ kr) : getCount (bump s kb n) kr = getCount s kr := by
  induction s with
  | nil => simp [bump, getCount, h]
  | cons kv rest ih =>
    obtain ⟨ka, v⟩ := kv
    by_cases hk : ka = kb
    · subst hk; simp [bump, getCount, h]
    · by_cases hr : ka = kr
      · subst hr; simp [bump, getCount, hk]
      · simp [bump, getCount, hk, hr, ih]

/-- Every classification result is one of the twelve fixed tags. -/
theorem getPixiType_mem_typeTags (c : Container) : getPixiType c ∈ typeTags := by
  rw [getPixiType]
  cases h : checks.find? (fun tc => tc.2 c) with
  | none => decide
  | some tc =>
    have hm : tc ∈ checks := List.mem_of_find?_eq_some h
    show tc.1 ∈ typeTags
    simp only [checks, List.mem_cons, List.not_mem_nil, or_false] at hm
    rcases hm with rfl | rfl | rfl | rfl | rfl | rfl | rfl | rfl | rfl | rfl | rfl <;> decide

/-- None of the lower-cased type tags collides with the key of the total
counter. -/
theorem jsToLower_getPixiType_ne_total (c : Container) :
    jsToLower (getPixiType c) ≠ "total" := by
  have hall : ∀ t ∈ typeTags, jsToLower t ≠ "total" := by decide
  exact hall _ (getPixiType_mem_typeTags c)

/-- The per-node counter updates raise the total by exactly one. -/
theorem getCount_total_bumpNodeCounters (p : NodeProps) (t : String)
    (s : List (String × Nat)) (ht : jsToLower t ≠ "total") :
    getCount (bumpNodeCounters p t s) "total" = getCount s "total" + 1 := by
  have h2 : getCount (bump (bump s (jsToLower t) 1) "total" 1) "total"
      = getCount s "total" + 1 := by
    rw [getCount_bump_self, getCount_bump_ne _ _ _ _ ht]
  simp only [bumpNodeCounters]
  cases heff : p.effects with
  | none =>
    by_cases hm : p.mask = true
    · rw [if_pos hm, getCount_bump_ne _ _ _ _ (by decide : ("masks" : String) ≠ "total"), h2]
    · rw [if_neg hm]; exact h2
  | some n =>
    by_cases hm : p.mask = true
    · rw [if_pos hm, getCount_bump_ne _ _ _ _ (by decide : ("masks" : String) ≠ "total"),
        getCount_bump_ne _ _ _ _ (by decide : ("filters" : String) ≠ "total"), h2]
    · rw [if_neg hm, getCount_bump_ne _ _ _ _ (by decide : ("filters" : String) ≠ "total"), h2]

mutual

/-- The total counter of collectStats counts exactly the nodes reachable
when only the devtoolIgnoreChildren flag prunes the traversal. -/
theorem collectStats_total : ∀ (c : Container) (s : List (String × Nat)),
    getCount (collectStats c s) "total" = getCount s "total" + specStatsCount c
| .mk p kids, s => by
  have h4 := getCount_total_bumpNodeCounters p (getPixiType (Container.mk p kids)) s
    (jsToLower_getPixiType_ne_total _)
  simp only [collectStats, specStatsCount]
  by_cases hch : (p.hasChildrenField && !p.devtoolIgnoreChildren) = true
  · rw [if_pos hch, if_pos hch, collectStatsList_total kids _, h4]; omega
  · rw [if_neg hch, if_neg hch, h4]
termination_by structural c _ => c

theorem collectStatsList_total : ∀ (cs : List Container) (s : List (String × Nat)),
    getCount (collectStatsList cs s) "total" = getCount s "total" + specStatsCountList cs
| [], s => by simp [collectStatsList, specStatsCountList]
| c :: cs, s => by
  rw [collectStatsList, specStatsCountList, collectStatsList_total cs _,
    collectStats_total c s]
  omega
termination_by structural l _ => l

end

mutual

/-- The snapshot built by buildSceneGraph has exactly as many nodes as the
traversal rules keep: devtoolIgnore drops a node with its subtree,
devtoolIgnoreChildren drops only the subtree. -/
theorem buildSceneGraph_size : ∀ (c : Container) (d : Nat),
    sgSizeOpt (buildSceneGraph c d) = specSnapshotCount c
| .mk p kids, d => by
  simp only [buildSceneGraph, specSnapshotCount]
  by_cases hig : p.devtoolIgnore = true
  · rw [if_pos hig, if_pos hig]; rfl
  · rw [if_neg hig, if_neg hig]
    by_cases hch : (p.hasChildrenField && !p.devtoolIgnoreChildren) = true
    · rw [if_pos hch, if_pos hch]
      show 1 + sgSizeList (buildSceneGraphList kids (d + 1)) = _
      rw [buildSceneGraphList_size kids (d + 1)]
    · rw [if_neg hch, if_neg hch]; rfl
termination_by structural c _ => c

theorem buildSceneGraphList_size : ∀ (cs : List Container) (d : Nat),
    sgSizeList (buildSceneGraphList cs d) = specSnapshotCountList cs
| [], _ => by simp [buildSceneGraphList, specSnapshotCountList, sgSizeList]
| c :: cs, d => by
  rw [buildSceneGraphList, specSnapshotCountList]
  cases h : buildSceneGraph c d with
  | some n =>
    have hs := buildSceneGraph_size c d
    rw [h] at hs
    rw [sgSizeList, buildSceneGraphList_size cs d]
    show sgSizeOpt (some n) + _ = _
    rw [hs]
  | none =>
    have hs := buildSceneGraph_size c d
    rw [h] at hs
    rw [buildSceneGraphList_size cs d]
    have : specSnapshotCount c = 0 := by rw [← hs]; rfl
    omega
termination_by structural l _ => l

end

/-! ### Concrete display objects used to instantiate the theorems -/

/-- A plain container node: children list and parent reference present, no
devtool flags, no attachments. -/
def plainProps : NodeProps :=
  { renderPipeId := none, hasGotoAndPlay := false, hasStop := false, hasPlay := false,
    hasChildrenField := true, hasParentField := true, devtoolIgnore := false,
    devtoolIgnoreChildren := false, effects := none, mask := false, text := none }

/-- A node flagged hidden-from-tooling. -/
def ignoredNode : Container := .mk { plainProps with devtoolIgnore := true } []

/-- A root whose only child is flagged hidden-from-tooling. -/
def rootWithIgnoredChild : Container := .mk plainProps [ignoredNode]

/-- A sprite that also satisfies the generic container predicate. -/
def spriteNode : Container := .mk { plainProps with renderPipeId := some "sprite" } []

/-- A text node whose text content is 150 characters long. -/
def textProps : NodeProps :=
  { plainProps with renderPipeId := some "text", text := some (List.replicate 150 'x') }

/-! ### Claim C3 -/

/-- C3 counterexample: a root whose only child is flagged devtoolIgnore.
The Scene Walker drops the child, so the snapshot has one node, but
collectStats never consults the devtoolIgnore flag and still counts the
child: its total is 2, not the 1 that exclusion from both outputs would
give. -/
theorem c3_devtoolIgnore_not_excluded_from_stats :
    sgSizeOpt (buildSceneGraph rootWithIgnoredChild 0) = 1 ∧
    getCount (collectStats rootWithIgnoredChild []) "total" = 2 ∧
    getCount (collectStats rootWithIgnoredChild []) "total" ≠ 1 := by decide

/-- C3 (amended): a node flagged devtoolIgnore is excluded, with its whole
subtree, from the Scene Walker snapshot, and the devtoolIgnoreChildren flag
excludes exactly the subtree from both outputs while keeping the node; the
Stats Collector however ignores the devtoolIgnore flag: its total counts
every node of the traversal pruned only below devtoolIgnoreChildren
nodes. -/
theorem c3_ignore_flag_scope (c : Container) (d : Nat) :
    sgSizeOpt (buildSceneGraph c d) = specSnapshotCount c ∧
    getCount (collectStats c []) "total" = specStatsCount c :=
  ⟨buildSceneGraph_size c d, by simpa [getCount] using collectStats_total c []⟩

/-! ### Claim C9 -/

/-- C9: getPixiType evaluates the fixed ordered check list top-down.  When
some specific predicate (one of the first ten pairs) matches, the tag of
the first such match is returned — a node that also satisfies the generic
container predicate still gets the specific tag, never "Container" or
"Unknown".  When no specific predicate matches, classification falls
through to "Container" exactly when the node has a children list and a
parent reference, else to "Unknown".  Determinism and idempotence are
immediate since the classifier is a pure function of the node. -/
theorem c9_first_match_classification (c : Container) :
    (∀ tc : String × (Container → Bool),
      specificChecks.find? (fun tc => tc.2 c) = some tc → getPixiType c = tc.1) ∧
    (specificChecks.find? (fun tc => tc.2 c) = none →
      getPixiType c = if c.props.hasChildrenField && c.props.hasParentField
        then "Container" else "Unknown") ∧
    (∀ tc : String × (Container → Bool),
      specificChecks.find? (fun tc => tc.2 c) = some tc →
      getPixiType c ≠ "Container" ∧ getPixiType c ≠ "Unknown") := by
  have hsplit : checks = specificChecks ++
      [("Container", fun c => c.props.hasChildrenField && c.props.hasParentField)] := rfl
  refine ⟨?_, ?_, ?_⟩
  · intro tc h
    rw [getPixiType, hsplit, List.find?_append, h]
    rfl
  · intro h
    rw [getPixiType, hsplit, List.find?_append, h, Option.none_or]
    by_cases hc : (c.props.hasChildrenField && c.props.hasParentField) = true
    · have hf : List.find? (fun tc => tc.2 c)
          [(("Container" : String),
            fun c : Container => c.props.hasChildrenField && c.props.hasParentField)]
          = some ("Container",
            fun c : Container => c.props.hasChildrenField && c.props.hasParentField) :=
        List.find?_cons_of_pos _ hc
      rw [if_pos hc, hf]
    · have hf : List.find? (fun tc => tc.2 c)
          [(("Container" : String),
            fun c : Container => c.props.hasChildrenField && c.props.hasParentField)]
          = none :=
        List.find?_cons_of_neg _ (by simpa using hc)
      rw [if_neg hc, hf]
  · intro tc h
    have heq : getPixiType c = tc.1 := by
      rw [getPixiType, hsplit, List.find?_append, h]; rfl
    have hm : tc ∈ specificChecks := List.mem_of_find?_eq_some h
    have hsc : specificChecks =
        [ ("BitmapText", fun c : Container => c.props.renderPipeId == some "BitmapText"),
          ("HTMLText", fun c => c.props.renderPipeId == some "htmlText"),
          ("Text", fun c => c.props.renderPipeId == some "text"),
          ("Mesh", fun c => c.props.renderPipeId == some "mesh"),
          ("Graphics", fun c => c.props.renderPipeId == some "graphics"),
          ("AnimatedSprite", fun c => c.props.hasGotoAndPlay && c.props.hasStop && c.props.hasPlay),
          ("NineSliceSprite", fun c => c.props.renderPipeId == some "nineSliceSprite"),
          ("TilingSprite", fun c => c.props.renderPipeId == some "tilingSprite"),
          ("Sprite", fun c => c.props.renderPipeId == some "sprite"),
          ("ParticleContainer", fun c => c.props.renderPipeId == some "particle") ] := rfl
    rw [hsc] at hm
    rw [heq]
    simp only [List.mem_cons, List.not_mem_nil, or_false] at hm
    rcases hm with rfl | rfl | rfl | rfl | rfl | rfl | rfl | rfl | rfl | rfl <;>
      exact ⟨by decide, by decide⟩

/-- C9 witness: a node carrying the sprite pipe id that also has a children
list and a parent reference is classified "Sprite", not "Container". -/
theorem c9_first_match_classification_witness :
    getPixiType spriteNode = "Sprite" ∧
    getPixiType spriteNode ≠ "Container" ∧ getPixiType spriteNode ≠ "Unknown" :=
  ⟨(c9_first_match_classification spriteNode).1
      ("Sprite", fun c => c.props.renderPipeId == some "sprite") rfl,
   (c9_first_match_classification spriteNode).2.2
      ("Sprite", fun c => c.props.renderPipeId == some "sprite") rfl⟩

/-! ### Claim C10 -/

/-- C10: in the Scene Walker snapshot, the text field of every text-like
node (Text, BitmapText, HTMLText) holds exactly the first 100 characters of
the node's text content, hence never more than 100 characters. -/
theorem c10_text_truncated (p : NodeProps) (kids : List Container) (d : Nat) (n : SGNode)
    (hb : buildSceneGraph (.mk p kids) d = some n)
    (ht : n.type = "Text" ∨ n.type = "BitmapText" ∨ n.type = "HTMLText") :
    n.text = p.text.map (fun t => t.take 100) ∧
    ∀ t, n.text = some t → t.length ≤ 100 := by
  simp only [buildSceneGraph] at hb
  by_cases hig : p.devtoolIgnore = true
  · rw [if_pos hig] at hb; exact absurd hb (by simp)
  · rw [if_neg hig] at hb
    injection hb with hb
    subst hb
    simp only [SGNode.type] at ht
    have h1 : (SGNode.mk (getPixiType (Container.mk p kids))
        (if getPixiType (Container.mk p kids) = "Text" ∨
            getPixiType (Container.mk p kids) = "BitmapText" ∨
            getPixiType (Container.mk p kids) = "HTMLText" then
          p.text.map (fun t => t.take 100) else none) d
        (if p.hasChildrenField && !p.devtoolIgnoreChildren then
          buildSceneGraphList kids (d + 1) else [])).text
        = p.text.map (fun t => t.take 100) := by
      show (if _ ∨ _ ∨ _ then p.text.map (fun t => t.take 100) else none) = _
      rw [if_pos ht]
    refine ⟨h1, ?_⟩
    intro t htx
    rw [h1] at htx
    cases hp : p.text with
    | none => rw [hp] at htx; simp at htx
    | some t0 =>
      rw [hp] at htx
      simp only [Option.map_some'] at htx
      cases htx
      rw [List.length_take]
      exact min_le_left _ _

/-- C10 witness: a text node with 150 characters of content is snapshotted
with exactly the first 100 characters. -/
theorem c10_text_truncated_witness :
    (SGNode.mk "Text" (some (List.replicate 100 'x')) 0 []).text
      = textProps.text.map (fun t => t.take 100) ∧
    ∀ t, (SGNode.mk "Text" (some (List.replicate 100 'x')) 0 []).text = some t →
      t.length ≤ 100 :=
  c10_text_truncated textProps [] 0 _ (by rfl) (Or.inl rfl)

/-! ### Instruction Tree Builder (processInstructionSet of the capture path) -/

/-- One instruction of a flattened instruction set: either a leaf tagged by
its pipeline-stage kind or a render group owning a nested instruction
set. -/
inductive Inst where
| leaf (pipeId : String)
| group (sub : List Inst)

/-- The data recorded for one processed instruction, restricted to the
fields that carry the traversal bookkeeping: the index read off the global
instruction list, the type tag and the nesting depth.  The kind-specific
payloads (textures, shader sources, geometry) are plain per-entry reads
with no bearing on the indexing claim and are not modelled. -/
structure InstData where
  index : Nat
  type : String
  depth : Nat
deriving DecidableEq

mutual

/-- One loop iteration of processInstructionSet of src/inject.ts for a
single instruction: the index field is read from the length of the global
list when the instruction is visited, but for a render group the nested set
is processed before the group's own entry is pushed onto the global list.
Returns the grown global list and the entry built for this instruction. -/
def processInst : Inst → Nat → List InstData → (List InstData × InstData)
| .leaf pid, depth, glob =>
  let idx := glob.length
  let d : InstData := ⟨idx, pid, depth⟩
  (glob ++ [d], d)
| .group sub, depth, glob =>
  let idx := glob.length
  let (globc, _kids) := processInstructionSet sub (depth + 1) glob
  let d : InstData := ⟨idx, "renderGroup", depth⟩
  (globc ++ [d], d)
termination_by structural i _ _ => i

/-- processInstructionSet of src/inject.ts.  The first component threads
the outer mutable global list named instructions (each processed entry is
pushed onto it), the second component is the per-level result list. -/
def processInstructionSet : List Inst → Nat → List InstData → (List InstData × List InstData)
| [], _, glob => (glob, [])
| i :: rest, depth, glob =>
  let (glob1, d) := processInst i depth glob
  let (glob2, res) := processInstructionSet rest depth glob1
  (glob2, d :: res)
termination_by structural l _ _ => l

end

/-! ### Claim C4 -/

/-- C4 is falsified by the code: processing a top-level set holding one
render group with a single nested instruction assigns index 0 both to the
nested instruction and to the render group itself (the group's index is
read before its entry is pushed, but the push happens only after the
nested set has been processed), so the index fields of the global
instruction list are neither unique nor increasing in visit order. -/
theorem c4_nested_group_duplicates_index :
    ((processInstructionSet [Inst.group [Inst.leaf "batch"]] 0 []).1.map InstData.index
      = [0, 0]) ∧
    ¬ ((processInstructionSet [Inst.group [Inst.leaf "batch"]] 0 []).1.map
        InstData.index).Nodup := by
  constructor
  · rfl
  · decide

/-! ### Benchmark Runner -/

/-- Number(x.toFixed(d)): round to the nearest multiple of 10 ^ (-d).  The
values rounded in the script are nonnegative, where JS rounds ties up,
matching round. -/
def jsToFixed (d : Nat) (q : ℚ) : ℚ := (round (q * (10 ^ d : ℚ)) : ℚ) / (10 ^ d : ℚ)

/-- Math.floor of the nonnegative numbers used as percentile indices. -/
def jsFloorNat (q : ℚ) : Nat := (⌊q⌋).toNat

/-- The benchmark busy loop of src/inject.ts.  The prospective wall-clock
duration of each successive render is supplied by the list ts; one entry is
consumed per render while the elapsed time is still below durationMs (the
model charges all elapsed time to the renders), and the loop also stops
when the supply runs out (the model's finite horizon).  Returns the elapsed
time at exit, the frames array and the frame counter, which the source
maintains as two separate mutable variables. -/
def benchLoop : List ℚ → ℚ → ℚ → List ℚ → Nat → (ℚ × List ℚ × Nat)
| [], _, elapsed, frames, frameCount => (elapsed, frames, frameCount)
| t :: rest, durationMs, elapsed, frames, frameCount =>
  if elapsed < durationMs then
    benchLoop rest durationMs (elapsed + t) (frames ++ [t]) (frameCount + 1)
  else (elapsed, frames, frameCount)

/-- The frame-time distribution block of a benchmark result. -/
structure FrameTimeStats where
  avg : ℚ
  min : ℚ
  max : ℚ
  p50 : ℚ
  p95 : ℚ
  p99 : ℚ
deriving DecidableEq

/-- A successful benchmark result. -/
structure BenchmarkResult where
  duration : ℚ
  frameCount : Nat
  fps : ℚ
  frameTime : FrameTimeStats
deriving DecidableEq

/-- A JavaScript exception escaping to the caller. -/
inductive JsError where
| typeError
deriving DecidableEq

/-- The value benchmark hands back to the transport when it returns. -/
inductive BenchOutcome where
| errVal (msg : String)
| ok (res : BenchmarkResult)
deriving DecidableEq

/-- benchmark of src/inject.ts.  When no renderer or stage is found the
structured error value is returned.  Otherwise the busy loop runs, and the
statistics are computed over the frames array sorted ascending (modelled by
insertion sort, which agrees with the numeric comparator sort of the
source).  When the loop recorded no frame at all — as happens for any
durationMs ≤ 0 — the source evaluates sortedFrames[0].toFixed(3) where
sortedFrames[0] is undefined and throws a TypeError; this is the error
case of the model. -/
def benchmark (hasRenderer hasStage : Bool) (durationMs : ℚ) (ts : List ℚ) :
    Except JsError BenchOutcome :=
  if !(hasRenderer && hasStage) then .ok (.errVal "No renderer or stage found")
  else
    let r := benchLoop ts durationMs 0 [] 0
    let totalTime := r.1
    let frames := r.2.1
    let frameCount := r.2.2
    let avgFrameTime := frames.sum / (frames.length : ℚ)
    let sortedFrames := frames.insertionSort (fun a b => a ≤ b)
    match sortedFrames with
    | [] => .error .typeError
    | m :: _ =>
      .ok (.ok {
        duration := jsToFixed 0 totalTime,
        frameCount := frameCount,
        fps := jsToFixed 1 ((frameCount : ℚ) / (totalTime / 1000)),
        frameTime := {
          avg := jsToFixed 3 avgFrameTime,
          min := jsToFixed 3 m,
          max := jsToFixed 3 (sortedFrames.getD (sortedFrames.length - 1) 0),
          p50 := jsToFixed 3 (sortedFrames.getD (jsFloorNat ((frames.length : ℚ) * 0.5)) 0),
          p95 := jsToFixed 3 (sortedFrames.getD (jsFloorNat ((frames.length : ℚ) * 0.95)) 0),
          p99 := jsToFixed 3 (sortedFrames.getD (jsFloorNat ((frames.length : ℚ) * 0.99)) 0) } })

/-- The frames array the benchmark loop records. -/
def benchFrames (durationMs : ℚ) (ts : List ℚ) : List ℚ :=
  (benchLoop ts durationMs 0 [] 0).2.1

/-- The elapsed time the benchmark loop measures. -/
def benchElapsed (durationMs : ℚ) (ts : List ℚ) : ℚ :=
  (benchLoop ts durationMs 0 [] 0).1

/-! ### Benchmark support lemmas -/

/-- Rounding to a fixed number of decimals is monotone. -/
theorem jsToFixed_mono (d : Nat) (a b : ℚ) (h : a ≤ b) :
    jsToFixed d a ≤ jsToFixed d b := by
  have h10 : (0 : ℚ) < (10 ^ d : ℚ) := by positivity
  have hmul : a * (10 ^ d : ℚ) ≤ b * (10 ^ d : ℚ) :=
    mul_le_mul_of_nonneg_right h h10.le
  have hr : round (a * (10 ^ d : ℚ)) ≤ round (b * (10 ^ d : ℚ)) := by
    rw [round_eq, round_eq]
    exact Int.floor_le_floor (by linarith)
  unfold jsToFixed
  exact (div_le_div_right h10).mpr (by exact_mod_cast hr)

/-- The frame counter and the frames array of the loop grow in lockstep. -/
theorem benchLoop_count : ∀ (ts : List ℚ) (dm e : ℚ) (fr : List ℚ) (fc : Nat),
    fc = fr.length →
    (benchLoop ts dm e fr fc).2.2 = (benchLoop ts dm e fr fc).2.1.length
| [], _, _, _, _, h => h
| t :: rest, dm, e, fr, fc, h => by
  rw [benchLoop]
  split
  · exact benchLoop_count rest dm (e + t) (fr ++ [t]) (fc + 1) (by simp [h])
  · exact h

/-- Reading a sorted list at two ordered in-bounds positions is monotone. -/
theorem sorted_getD_le (l : List ℚ) (hsort : l.Sorted (fun a b => a ≤ b)) (i j : Nat)
    (hij : i ≤ j) (hj : j < l.length) : l.getD i 0 ≤ l.getD j 0 := by
  have hi : i < l.length := Nat.lt_of_le_of_lt hij hj
  rw [List.getD_eq_get l 0 hi, List.getD_eq_get l 0 hj]
  rcases Nat.lt_or_ge i j with hlt | hge
  · exact hsort.rel_get_of_lt (show (⟨i, hi⟩ : Fin l.length) < ⟨j, hj⟩ from hlt)
  · have hij2 : i = j := Nat.le_antisymm hij hge
    subst hij2
    exact le_refl _

/-- Every member of a sorted list is at most its last entry. -/
theorem sorted_le_getD_last (l : List ℚ) (hsort : l.Sorted (fun a b => a ≤ b))
    (x : ℚ) (hx : x ∈ l) : x ≤ l.getD (l.length - 1) 0 := by
  obtain ⟨⟨k, hk⟩, hget⟩ := List.mem_iff_get.mp hx
  have h1 : l.getD k 0 = x := by rw [List.getD_eq_get l 0 hk, hget]
  rw [← h1]
  exact sorted_getD_le l hsort k (l.length - 1) (by omega) (by omega)

/-- A list of values all at least b sums to at least length times b. -/
theorem length_mul_le_sum (l : List ℚ) (b : ℚ) (h : ∀ x ∈ l, b ≤ x) :
    (l.length : ℚ) * b ≤ l.sum := by
  induction l with
  | nil => simp
  | cons x xs ih =>
    have hx := h x (List.mem_cons_self x xs)
    have ihs := ih fun y hy => h y (List.mem_cons_of_mem x hy)
    simp only [List.length_cons, List.sum_cons]
    push_cast
    nlinarith [ihs, hx]

/-- A list of values all at most b sums to at most length times b. -/
theorem sum_le_length_mul (l : List ℚ) (b : ℚ) (h : ∀ x ∈ l, x ≤ b) :
    l.sum ≤ (l.length : ℚ) * b := by
  induction l with
  | nil => simp
  | cons x xs ih =>
    have hx := h x (List.mem_cons_self x xs)
    have ihs := ih fun y hy => h y (List.mem_cons_of_mem x hy)
    simp only [List.length_cons, List.sum_cons]
    push_cast
    nlinarith [ihs, hx]

/-! ### Claim C8 -/

/-- C8 (amended): for every benchmark call that records at least one frame,
frameCount equals the number of recorded frame times, fps equals frameCount
divided by elapsed seconds rounded to one decimal digit (the source stores
Number(x.toFixed(1))), and over the returned (three-decimal rounded)
frame-time statistics min ≤ avg ≤ max and p50 ≤ p95 ≤ p99 ≤ max. -/
theorem c8_benchmark_stats (hr hsg : Bool) (dm : ℚ) (ts : List ℚ) (res : BenchmarkResult)
    (h : benchmark hr hsg dm ts = .ok (.ok res)) :
    res.frameCount = (benchFrames dm ts).length ∧
    res.fps = jsToFixed 1 ((res.frameCount : ℚ) / (benchElapsed dm ts / 1000)) ∧
    res.frameTime.min ≤ res.frameTime.avg ∧
    res.frameTime.avg ≤ res.frameTime.max ∧
    res.frameTime.p50 ≤ res.frameTime.p95 ∧
    res.frameTime.p95 ≤ res.frameTime.p99 ∧
    res.frameTime.p99 ≤ res.frameTime.max := by
  simp only [benchmark] at h
  by_cases hflag : (!(hr && hsg)) = true
  · rw [if_pos hflag] at h
    simp at h
  · rw [if_neg hflag] at h
    cases hsorted : List.insertionSort (fun a b : ℚ => a ≤ b) (benchLoop ts dm 0 [] 0).2.1 with
    | nil =>
      rw [hsorted] at h
      exact absurd h (by simp)
    | cons m rest =>
      rw [hsorted] at h
      simp only [Except.ok.injEq, BenchOutcome.ok.injEq] at h
      subst h
      simp only [benchFrames, benchElapsed]
      have hsort0 : (m :: rest).Sorted (fun a b : ℚ => a ≤ b) := by
        rw [← hsorted]; exact List.sorted_insertionSort _ _
      have hperm : (m :: rest).Perm (benchLoop ts dm 0 [] 0).2.1 := by
        rw [← hsorted]; exact List.perm_insertionSort _ _
      have hlen : (m :: rest).length = (benchLoop ts dm 0 [] 0).2.1.length := hperm.length_eq
      have hsum : (m :: rest).sum = (benchLoop ts dm 0 [] 0).2.1.sum := hperm.sum_eq
      have hpos : 0 < (benchLoop ts dm 0 [] 0).2.1.length := by
        rw [← hlen]; exact Nat.succ_pos _
      set n := (benchLoop ts dm 0 [] 0).2.1.length with hn
      have hnQ : (0 : ℚ) < (n : ℚ) := by exact_mod_cast hpos
      have hminmem : ∀ x ∈ m :: rest, m ≤ x := by
        intro x hx
        rcases List.mem_cons.mp hx with hx1 | hx2
        · exact le_of_eq hx1.symm
        · exact List.rel_of_sorted_cons hsort0 x hx2
      have hmaxmem : ∀ x ∈ m :: rest, x ≤ (m :: rest).getD ((m :: rest).length - 1) 0 :=
        fun x hx => sorted_le_getD_last _ hsort0 x hx
      have hminavg : m ≤ (benchLoop ts dm 0 [] 0).2.1.sum / (n : ℚ) := by
        rw [le_div_iff hnQ, ← hsum]
        calc m * (n : ℚ) = (n : ℚ) * m := mul_comm _ _
          _ = ((m :: rest).length : ℚ) * m := by rw [hlen]
          _ ≤ (m :: rest).sum := length_mul_le_sum _ _ hminmem
      have havgmax : (benchLoop ts dm 0 [] 0).2.1.sum / (n : ℚ)
          ≤ (m :: rest).getD ((m :: rest).length - 1) 0 := by
        rw [div_le_iff hnQ, ← hsum]
        calc (m :: rest).sum
            ≤ ((m :: rest).length : ℚ) * ((m :: rest).getD ((m :: rest).length - 1) 0) :=
              sum_le_length_mul _ _ hmaxmem
          _ = (n : ℚ) * ((m :: rest).getD ((m :: rest).length - 1) 0) := by rw [hlen]
          _ = ((m :: rest).getD ((m :: rest).length - 1) 0) * (n : ℚ) := mul_comm _ _
      have hmr : (m :: rest).length = n := hlen
      have hnz : n ≠ 0 := Nat.pos_iff_ne_zero.mp hpos
      have hi5095 : jsFloorNat ((n : ℚ) * 0.5) ≤ jsFloorNat ((n : ℚ) * 0.95) :=
        Int.toNat_le_toNat (Int.floor_le_floor
          (mul_le_mul_of_nonneg_left (by norm_num) (by positivity)))
      have hi9599 : jsFloorNat ((n : ℚ) * 0.95) ≤ jsFloorNat ((n : ℚ) * 0.99) :=
        Int.toNat_le_toNat (Int.floor_le_floor
          (mul_le_mul_of_nonneg_left (by norm_num) (by positivity)))
      have hi99lt : jsFloorNat ((n : ℚ) * 0.99) < n := by
        rw [jsFloorNat, Int.toNat_lt' hnz]
        apply Int.floor_lt.mpr
        push_cast
        nlinarith [hnQ]
      have hp5095 : (m :: rest).getD (jsFloorNat ((n : ℚ) * 0.5)) 0
          ≤ (m :: rest).getD (jsFloorNat ((n : ℚ) * 0.95)) 0 :=
        sorted_getD_le _ hsort0 _ _ hi5095
          (by rw [hmr]; exact Nat.lt_of_le_of_lt hi9599 hi99lt)
      have hp9599 : (m :: rest).getD (jsFloorNat ((n : ℚ) * 0.95)) 0
          ≤ (m :: rest).getD (jsFloorNat ((n : ℚ) * 0.99)) 0 :=
        sorted_getD_le _ hsort0 _ _ hi9599 (by rw [hmr]; exact hi99lt)
      have hp99max : (m :: rest).getD (jsFloorNat ((n : ℚ) * 0.99)) 0
          ≤ (m :: rest).getD ((m :: rest).length - 1) 0 :=
        sorted_getD_le _ hsort0 _ _ (by rw [hmr]; omega) (by rw [hmr]; omega)
      refine ⟨?_, ?_, ?_, ?_, ?_, ?_, ?_⟩
      · show (benchLoop ts dm 0 [] 0).2.2 = n
        rw [hn]
        exact benchLoop_count ts dm 0 [] 0 rfl
      · trivial
      · exact jsToFixed_mono 3 _ _ hminavg
      · exact jsToFixed_mono 3 _ _ havgmax
      · exact jsToFixed_mono 3 _ _ hp5095
      · exact jsToFixed_mono 3 _ _ hp9599
      · exact jsToFixed_mono 3 _ _ hp99max

/-- Concrete evaluation of one benchmark run: a single 3000 ms frame is
recorded over a 1 ms budget. -/
theorem benchmark_one_frame_eval :
    benchmark true true 1 [3000] = .ok (.ok
      { duration := 3000, frameCount := 1, fps := 3 / 10,
        frameTime := { avg := 3000, min := 3000, max := 3000,
                       p50 := 3000, p95 := 3000, p99 := 3000 } }) := by
  have hloop : benchLoop [(3000 : ℚ)] 1 0 [] 0 = (3000, [3000], 1) := by
    rw [benchLoop, if_pos (by norm_num), benchLoop]
    norm_num
  simp only [benchmark, hloop]
  rw [if_neg (by decide)]
  simp only [List.insertionSort, List.orderedInsert, Except.ok.injEq, BenchOutcome.ok.injEq,
    BenchmarkResult.mk.injEq, FrameTimeStats.mk.injEq]
  norm_num [jsToFixed, jsFloorNat, round_eq, List.getD]

/-- C8 counterexample: with one 3000 ms frame recorded over a 1 ms budget
the exact frames-per-elapsed-second quotient is 1 / 3, but the source
stores Number(x.toFixed(1)), so the returned fps field is 0.3: the fps of a
benchmark result is not equal to frameCount divided by elapsed seconds. -/
theorem c8_fps_is_rounded :
    (benchmark true true 1 [3000] = .ok (.ok
      { duration := 3000, frameCount := 1, fps := 3 / 10,
        frameTime := { avg := 3000, min := 3000, max := 3000,
                       p50 := 3000, p95 := 3000, p99 := 3000 } })) ∧
    (3 : ℚ) / 10 ≠ (1 : ℚ) / (benchElapsed 1 [3000] / 1000) := by
  refine ⟨benchmark_one_frame_eval, ?_⟩
  have he : benchElapsed 1 [3000] = 3000 := by
    rw [benchElapsed]
    rw [benchLoop, if_pos (by norm_num), benchLoop]
    norm_num
  rw [he]
  norm_num

/-- C8 witness: the amended statement instantiated on the concrete
single-frame run. -/
theorem c8_benchmark_stats_witness :
    ({ duration := 3000, frameCount := 1, fps := 3 / 10,
       frameTime := { avg := 3000, min := 3000, max := 3000,
                      p50 := 3000, p95 := 3000, p99 := 3000 } } :
        BenchmarkResult).frameCount = (benchFrames 1 [3000]).length ∧
    ({ duration := 3000, frameCount := 1, fps := 3 / 10,
       frameTime := { avg := 3000, min := 3000, max := 3000,
                      p50 := 3000, p95 := 3000, p99 := 3000 } } :
        BenchmarkResult).fps = jsToFixed 1 ((1 : ℚ) / (benchElapsed 1 [3000] / 1000)) ∧
    (3000 : ℚ) ≤ 3000 ∧ (3000 : ℚ) ≤ 3000 ∧ (3000 : ℚ) ≤ 3000 ∧
    (3000 : ℚ) ≤ 3000 ∧ (3000 : ℚ) ≤ 3000 :=
  c8_benchmark_stats true true 1 [3000] _ benchmark_one_frame_eval

/-! ### Claim C5 -/

/-- C5 is falsified by the code at benchmark with a non-positive duration:
with durationMs = 0 and a renderer and stage present, the busy loop exits
before recording any frame (the while condition 0 < 0 is false at once),
and the frame-time block then evaluates sortedFrames[0].toFixed(3) where
sortedFrames[0] is undefined, so the call raises a TypeError to the caller
instead of returning a plain value or an object with an error key. -/
theorem c5_benchmark_throws_on_zero_duration :
    benchmark true true 0 [5] = .error .typeError := rfl

/-! ### Render Instrumentation Engine (capture of src/inject.ts) -/

/-- An execution entry point installed on a pipeline stage: either the
stage's own pre-capture execute or the measuring wrapper capture installs
for the named stage. -/
inductive ExecFn where
| orig (key : String)
| wrapped (key : String)
deriving DecidableEq

/-- A draw-submission primitive installed on the low-level drawing context:
the context's own drawElements / drawArrays or the counting wrapper a stage
invocation installs for the named stage. -/
inductive DrawFn where
| glDrawElements
| glDrawArrays
| countElements (key : String)
| countArrays (key : String)
deriving DecidableEq

/-- The two draw-submission slots of the drawing context. -/
structure GlFns where
  drawElements : DrawFn
  drawArrays : DrawFn
deriving DecidableEq

/-- The per-stage record of pipeTimings. -/
structure PipeTiming where
  time : ℚ
  calls : Nat
  drawCalls : Nat
deriving DecidableEq

/-- One entry of the ordered draw-order log. -/
structure DrawRec where
  pipe : String
  drawCalls : Nat
  time : ℚ
deriving DecidableEq

/-- One invocation of a wrapped stage during the instrumented render: the
stage's key, how many draw-submission calls the original stage logic
issues, whether that logic then throws, and the invocation's measured
duration. -/
structure StageCall where
  key : String
  draws : Nat
  throws : Bool
  time : ℚ

/-- The mutable state the wrappers touch during the instrumented render. -/
structure RunState where
  gl : Option GlFns
  timings : List (String × PipeTiming)
  drawOrder : List DrawRec
  totalDrawCalls : Nat
deriving DecidableEq

/-- Update the record under a key of the timing table (a no-op for a key
without a record; during a capture every invoked stage was wrapped and so
has one). -/
def updateTiming (f : PipeTiming → PipeTiming) :
    List (String × PipeTiming) → String → List (String × PipeTiming)
| [], _ => []
| (k, v) :: rest, key =>
  if k = key then (k, f v) :: rest else (k, v) :: updateTiming f rest key

/-- The wrapper capture installs in place of pipe.execute (src/inject.ts
lines 321-358), for one invocation.  The invocation counter is bumped
first.  When a drawing context is present, the current draw primitives are
saved, the counting wrappers installed and the original stage logic run:
each of its draw calls bumps the per-invocation and global counters.  Only
on normal return are the two primitives restored, the timing accumulated
and a draw-order entry appended; when the stage logic throws, the exception
propagates with the context still holding the counting wrappers.  Without a
drawing context the stage runs unwrapped and logs zero draw calls. -/
def runStageCall (call : StageCall) (s : RunState) : Except RunState RunState :=
  let t1 := updateTiming (fun v => { v with calls := v.calls + 1 }) s.timings call.key
  match s.gl with
  | some g =>
    let origDraw := g.drawElements
    let origDrawArrays := g.drawArrays
    let gWrapped : GlFns := ⟨.countElements call.key, .countArrays call.key⟩
    let total := s.totalDrawCalls + call.draws
    if call.throws then
      .error { s with gl := some gWrapped, timings := t1, totalDrawCalls := total }
    else
      let t2 := updateTiming
        (fun v => { v with time := v.time + call.time, drawCalls := v.drawCalls + call.draws })
        t1 call.key
      .ok { gl := some ⟨origDraw, origDrawArrays⟩, timings := t2,
            drawOrder := s.drawOrder ++ [⟨call.key, call.draws, call.time⟩],
            totalDrawCalls := total }
  | none =>
    if call.throws then
      .error { s with timings := t1 }
    else
      let t2 := updateTiming (fun v => { v with time := v.time + call.time }) t1 call.key
      .ok { s with
            timings := t2,
            drawOrder := s.drawOrder ++ [⟨call.key, 0, call.time⟩] }

/-- The instrumented render: the wrapped stage invocations the render
issues, threaded through the wrapper semantics; the first throwing stage
aborts the render and the exception escapes renderer.render. -/
def runRender : List StageCall → RunState → Except RunState RunState
| [], s => .ok s
| call :: rest, s =>
  match runStageCall call s with
  | .ok s2 => runRender rest s2
  | .error s2 => .error s2

/-- Lines 314-359 of src/inject.ts: for every pipe exposing an execute
entry point, save it, install the wrapper and create a zeroed timing
record; pipes without an execute are skipped.  Returns the patched pipe
table, the saved-originals map and the initial timing table. -/
def instrumentPipes :
    List (String × Option ExecFn) →
    List (String × Option ExecFn) × List (String × ExecFn) × List (String × PipeTiming)
| [] => ([], [], [])
| (k, none) :: rest =>
  let ip := instrumentPipes rest
  ((k, none) :: ip.1, ip.2.1, ip.2.2)
| (k, some f) :: rest =>
  let ip := instrumentPipes rest
  ((k, some (.wrapped k)) :: ip.1, (k, f) :: ip.2.1, (k, ⟨0, 0, 0⟩) :: ip.2.2)

/-- Lines 367-372 of src/inject.ts: restore every saved execute entry
point onto its pipe. -/
def restorePipes (pipes : List (String × Option ExecFn)) (saved : List (String × ExecFn)) :
    List (String × Option ExecFn) :=
  pipes.map fun ke =>
    match saved.lookup ke.1 with
    | some f => (ke.1, some f)
    | none => ke

/-- The capture result, restricted to the render timing, draw accounting
and instruction fields.  The per-type scene totals, the memory block and
the canvas block are plain per-field reads with no bearing on any claim
and are not modelled. -/
structure CaptureResult where
  renderTime : ℚ
  profiledRenderTime : ℚ
  drawCalls : Nat
  instructionCount : Nat
  pipeTimings : List (String × PipeTiming)
  instructions : List InstData
  drawOrder : List DrawRec
deriving DecidableEq

/-- How a capture call ends: a returned error value, a returned result, or
an exception escaping to the caller. -/
inductive CaptureOutcome where
| errVal (msg : String)
| ok (res : CaptureResult)
| thrown
deriving DecidableEq

/-- What a capture call leaves behind: its outcome, the renderer's pipe
table, the drawing-context state and the number of renders issued. -/
structure CaptureRun where
  outcome : CaptureOutcome
  finalPipes : List (String × Option ExecFn)
  finalGl : Option GlFns
  renders : Nat
deriving DecidableEq

/-- What capture finds in the page: whether a renderer and stage resolve,
the instruction set of the stage's render group when it has one, the
renderer's pipe table and its low-level drawing context. -/
structure CaptureEnv where
  hasRenderer : Bool
  hasStage : Bool
  instructionSet : Option (List Inst)
  pipes : List (String × Option ExecFn)
  gl : Option GlFns

/-- capture of src/inject.ts (lines 287-600): check the preconditions,
issue the baseline render, wrap every stage's execute, issue the
instrumented render — whose wrapped stage invocations are the supplied
trace — then restore the saved entry points, and assemble the result with
the zero-call timing records filtered out.  Neither render sits inside a
try/finally in the source: when the baseline render throws nothing has been
patched yet, but when the instrumented render throws the function aborts
before the restore loop runs.  renderTime and profiledTime supply the
wall-clock durations of the two renders. -/
def capture (env : CaptureEnv) (baselineThrows : Bool) (trace : List StageCall)
    (renderTime profiledTime : ℚ) : CaptureRun :=
  if !(env.hasRenderer && env.hasStage) then
    ⟨.errVal "No renderer or stage found", env.pipes, env.gl, 0⟩
  else
    match env.instructionSet with
    | none => ⟨.errVal "Capture requires PixiJS v8 with render groups", env.pipes, env.gl, 0⟩
    | some instSet =>
      if baselineThrows then ⟨.thrown, env.pipes, env.gl, 1⟩
      else
        let ip := instrumentPipes env.pipes
        match runRender trace ⟨env.gl, ip.2.2, [], 0⟩ with
        | .error s => ⟨.thrown, ip.1, s.gl, 2⟩
        | .ok s =>
          ⟨.ok {
              renderTime := jsToFixed 3 renderTime,
              profiledRenderTime := jsToFixed 3 profiledTime,
              drawCalls := s.totalDrawCalls,
              instructionCount := instSet.length,
              pipeTimings := (s.timings.filter (fun kv => decide (0 < kv.2.calls))).map
                (fun kv => (kv.1, { kv.2 with time := jsToFixed 3 kv.2.time })),
              instructions := (processInstructionSet instSet 0 []).1,
              drawOrder := s.drawOrder.map (fun d => { d with time := jsToFixed 3 d.time }) },
            restorePipes ip.1 ip.2.1, s.gl, 2⟩

/-! ### Success-path restoration

On the success path the restore loop does return the pipe table to its
pre-capture state; the identity below documents this (the C1 failure is
confined to the exception path, where the loop never runs). -/

theorem instrumentPipes_keys : ∀ pipes : List (String × Option ExecFn),
    (instrumentPipes pipes).1.map Prod.fst = pipes.map Prod.fst
| [] => rfl
| (k, none) :: rest => by
  show k :: (instrumentPipes rest).1.map Prod.fst = k :: rest.map Prod.fst
  rw [instrumentPipes_keys rest]
| (k, some f) :: rest => by
  show k :: (instrumentPipes rest).1.map Prod.fst = k :: rest.map Prod.fst
  rw [instrumentPipes_keys rest]

theorem lookup_instrumentPipes_saved_eq_none :
    ∀ (pipes : List (String × Option ExecFn)) (k : String),
    k ∉ pipes.map Prod.fst → (instrumentPipes pipes).2.1.lookup k = none
| [], _, _ => rfl
| (k2, none) :: rest, k, hk => by
  simp only [List.map_cons, List.mem_cons, not_or] at hk
  exact lookup_instrumentPipes_saved_eq_none rest k hk.2
| (k2, some f) :: rest, k, hk => by
  simp only [List.map_cons, List.mem_cons, not_or] at hk
  have hbe : (k == k2) = false := beq_eq_false_iff_ne.mpr hk.1
  show List.lookup k ((k2, f) :: (instrumentPipes rest).2.1) = none
  simp only [List.lookup, hbe]
  exact lookup_instrumentPipes_saved_eq_none rest k hk.2

theorem restorePipes_saved_head_irrelevant (ps : List (String × Option ExecFn))
    (sv : List (String × ExecFn)) (k : String) (f : ExecFn)
    (hk : k ∉ ps.map Prod.fst) :
    restorePipes ps ((k, f) :: sv) = restorePipes ps sv := by
  simp only [restorePipes]
  apply List.map_congr_left
  intro ke hke
  have hne : (ke.1 == k) = false := by
    refine beq_eq_false_iff_ne.mpr fun he => hk ?_
    exact he ▸ List.mem_map_of_mem Prod.fst hke
  simp only [List.lookup, hne]

/-- With the stage names distinct (as Object.keys guarantees in the
source), restoring the saved entry points onto the patched pipe table
gives back exactly the pre-capture table. -/
theorem restorePipes_instrumentPipes :
    ∀ pipes : List (String × Option ExecFn), (pipes.map Prod.fst).Nodup →
    restorePipes (instrumentPipes pipes).1 (instrumentPipes pipes).2.1 = pipes
| [], _ => rfl
| (k, none) :: rest, hnd => by
  simp only [List.map_cons, List.nodup_cons] at hnd
  show restorePipes ((k, none) :: (instrumentPipes rest).1) (instrumentPipes rest).2.1
    = (k, none) :: rest
  have hhead : ((instrumentPipes rest).2.1).lookup k = none :=
    lookup_instrumentPipes_saved_eq_none rest k hnd.1
  simp only [restorePipes, List.map_cons, hhead]
  have htail := restorePipes_instrumentPipes rest hnd.2
  simp only [restorePipes] at htail
  rw [htail]
| (k, some f) :: rest, hnd => by
  simp only [List.map_cons, List.nodup_cons] at hnd
  show restorePipes ((k, some (ExecFn.wrapped k)) :: (instrumentPipes rest).1)
      ((k, f) :: (instrumentPipes rest).2.1) = (k, some f) :: rest
  have h1 : restorePipes ((k, some (ExecFn.wrapped k)) :: (instrumentPipes rest).1)
      ((k, f) :: (instrumentPipes rest).2.1)
      = (k, some f) ::
        restorePipes (instrumentPipes rest).1 ((k, f) :: (instrumentPipes rest).2.1) := by
    simp only [restorePipes, List.map_cons, List.lookup, beq_self_eq_true]
  rw [h1,
    restorePipes_saved_head_irrelevant _ _ _ _ (by rw [instrumentPipes_keys]; exact hnd.1),
    restorePipes_instrumentPipes rest hnd.2]

/-- A stage invocation that returns normally leaves the drawing context as
it found it. -/
theorem runStageCall_ok_gl (call : StageCall) (s s2 : RunState)
    (h : runStageCall call s = .ok s2) : s2.gl = s.gl := by
  simp only [runStageCall] at h
  split at h
  next g heq =>
    split at h
    · exact absurd h (by simp)
    · simp only [Except.ok.injEq] at h
      subst h
      rw [heq]
  next heq =>
    split at h
    · exact absurd h (by simp)
    · simp only [Except.ok.injEq] at h
      subst h
      rfl

/-- An instrumented render that returns normally leaves the drawing
context as it found it. -/
theorem runRender_ok_gl : ∀ (trace : List StageCall) (s s2 : RunState),
    runRender trace s = .ok s2 → s2.gl = s.gl
| [], s, s2, h => by
  simp only [runRender, Except.ok.injEq] at h
  subst h
  rfl
| call :: rest, s, s2, h => by
  simp only [runRender] at h
  cases hc : runStageCall call s with
  | ok smid =>
    rw [hc] at h
    have h2 : runRender rest smid = .ok s2 := h
    rw [runRender_ok_gl rest smid s2 h2, runStageCall_ok_gl call s smid hc]
  | error smid =>
    rw [hc] at h
    have h2 : (Except.error smid : Except RunState RunState) = .ok s2 := h
    exact absurd h2 (by simp)

/-- On the success path, capture leaves the renderer exactly as it found
it: the restore loop returns the pipe table to its pre-capture state and
the drawing context ends unpatched.  (The C1 and C2 failures below are
confined to the exception paths.) -/
theorem capture_success_restores (env : CaptureEnv) (bt : Bool) (trace : List StageCall)
    (rt pt : ℚ) (res : CaptureResult)
    (hnd : (env.pipes.map Prod.fst).Nodup)
    (h : (capture env bt trace rt pt).outcome = .ok res) :
    (capture env bt trace rt pt).finalPipes = env.pipes ∧
    (capture env bt trace rt pt).finalGl = env.gl := by
  by_cases hflag : (env.hasRenderer && env.hasStage) = true
  · cases hi : env.instructionSet with
    | none =>
      have hc : capture env bt trace rt pt =
          ⟨.errVal "Capture requires PixiJS v8 with render groups", env.pipes, env.gl, 0⟩ := by
        simp [capture, hflag, hi]
      rw [hc] at h
      exact absurd h (by simp)
    | some instSet =>
      by_cases hbt : bt = true
      · have hc : capture env bt trace rt pt = ⟨.thrown, env.pipes, env.gl, 1⟩ := by
          simp [capture, hflag, hi, hbt]
        rw [hc] at h
        exact absurd h (by simp)
      · cases hrun : runRender trace ⟨env.gl, (instrumentPipes env.pipes).2.2, [], 0⟩ with
        | error s =>
          have hg : (capture env bt trace rt pt).outcome = .thrown := by
            simp [capture, hflag, hi, hbt, hrun]
          rw [h] at hg
          exact absurd hg (by simp)
        | ok s =>
          have hp : (capture env bt trace rt pt).finalPipes =
              restorePipes (instrumentPipes env.pipes).1 (instrumentPipes env.pipes).2.1 := by
            simp [capture, hflag, hi, hbt, hrun]
          have hg : (capture env bt trace rt pt).finalGl = s.gl := by
            simp [capture, hflag, hi, hbt, hrun]
          refine ⟨?_, ?_⟩
          · rw [hp]
            exact restorePipes_instrumentPipes env.pipes hnd
          · rw [hg]
            exact runRender_ok_gl trace _ s hrun
  · have hb0 : (env.hasRenderer && env.hasStage) = false := by
      cases hb : env.hasRenderer && env.hasStage
      · rfl
      · exact absurd hb hflag
    have hc : capture env bt trace rt pt =
        ⟨.errVal "No renderer or stage found", env.pipes, env.gl, 0⟩ := by
      simp [capture, hb0]
    rw [hc] at h
    exact absurd h (by simp)

/-! ### Claim C1 -/

/-- A capture environment with one pipeline stage and no drawing
context. -/
def envOnePipe : CaptureEnv :=
  { hasRenderer := true, hasStage := true, instructionSet := some [],
    pipes := [("batch", some (.orig "batch"))], gl := none }

/-- C1 is falsified by the code: when the single stage throws during the
instrumented render, the exception escapes renderer.render, the restore
loop (which only runs after that call returns) is skipped, and capture ends
with the measuring wrapper still installed: the pipe table differs from its
pre-capture state. -/
theorem c1_pipes_left_patched_on_throw :
    capture envOnePipe false [⟨"batch", 0, true, 1⟩] 1 1 =
      ⟨.thrown, [("batch", some (.wrapped "batch"))], none, 2⟩ ∧
    [("batch", some (ExecFn.wrapped "batch"))] ≠ envOnePipe.pipes := by
  constructor
  · rfl
  · decide

/-! ### Claim C2 -/

/-- C2 is falsified by the code: a wrapped stage invocation whose original
logic throws ends with the counting wrappers still installed on the
drawing context — the restore of drawElements and drawArrays (lines
344-345) only runs when the original logic returns normally. -/
theorem c2_gl_left_patched_on_throw :
    runStageCall ⟨"batch", 2, true, 1⟩
        ⟨some ⟨.glDrawElements, .glDrawArrays⟩, [("batch", ⟨0, 0, 0⟩)], [], 0⟩ =
      .error ⟨some ⟨.countElements "batch", .countArrays "batch"⟩,
        [("batch", ⟨0, 1, 0⟩)], [], 2⟩ ∧
    (⟨.countElements "batch", .countArrays "batch"⟩ : GlFns) ≠
      ⟨.glDrawElements, .glDrawArrays⟩ := by
  constructor
  · rfl
  · decide

/-! ### Claim C6 -/

/-- C6: when a renderer and stage are found but the stage's render group
exposes no instruction set, capture returns exactly the version error
value, issues no render, and leaves the pipe table and the drawing context
in their pre-call state. -/
theorem c6_capture_requires_render_groups (env : CaptureEnv) (bt : Bool)
    (trace : List StageCall) (rt pt : ℚ)
    (hr : env.hasRenderer = true) (hsg : env.hasStage = true)
    (hi : env.instructionSet = none) :
    capture env bt trace rt pt =
      ⟨.errVal "Capture requires PixiJS v8 with render groups", env.pipes, env.gl, 0⟩ := by
  simp [capture, hr, hsg, hi]

/-- A capture environment with a renderer and stage but no instruction
set. -/
def envNoInstructionSet : CaptureEnv :=
  { hasRenderer := true, hasStage := true, instructionSet := none,
    pipes := [("batch", some (.orig "batch"))], gl := some ⟨.glDrawElements, .glDrawArrays⟩ }

/-- C6 witness: the theorem instantiated on a concrete environment. -/
theorem c6_capture_requires_render_groups_witness :
    capture envNoInstructionSet false [] 1 1 =
      ⟨.errVal "Capture requires PixiJS v8 with render groups",
        envNoInstructionSet.pipes, envNoInstructionSet.gl, 0⟩ :=
  c6_capture_requires_render_groups envNoInstructionSet false [] 1 1 rfl rfl rfl

/-! ### Claim C7 -/

/-- C7: the pipeTimings of every successful capture result holds no entry
with a zero invocation count: the zero-call records are filtered out before
the result is assembled. -/
theorem c7_pipeTimings_no_zero_calls (env : CaptureEnv) (bt : Bool)
    (trace : List StageCall) (rt pt : ℚ) (res : CaptureResult)
    (h : (capture env bt trace rt pt).outcome = .ok res) :
    ∀ kv ∈ res.pipeTimings, 0 < kv.2.calls := by
  intro kv hkv
  simp only [capture] at h
  split at h
  · exact absurd h (by simp)
  · split at h
    · exact absurd h (by simp)
    · split at h
      · exact absurd h (by simp)
      · split at h
        · exact absurd h (by simp)
        · simp only [CaptureOutcome.ok.injEq] at h
          subst h
          simp only [List.mem_map] at hkv
          obtain ⟨kv0, hkv0, rfl⟩ := hkv
          simp only [List.mem_filter] at hkv0
          exact of_decide_eq_true hkv0.2

/-- A capture environment with two wrapped stages, of which the trace only
invokes one, and a drawing context. -/
def envTwoPipes : CaptureEnv :=
  { hasRenderer := true, hasStage := true, instructionSet := some [Inst.leaf "batch"],
    pipes := [("batch", some (.orig "batch")), ("mesh", some (.orig "mesh"))],
    gl := some ⟨.glDrawElements, .glDrawArrays⟩ }

/-- The result of capturing envTwoPipes with a single three-draw batch
invocation: the mesh stage, wrapped but never invoked, is filtered out of
pipeTimings. -/
def resTwoPipes : CaptureResult :=
  { renderTime := jsToFixed 3 0, profiledRenderTime := jsToFixed 3 0, drawCalls := 3,
    instructionCount := 1,
    pipeTimings := [("batch", { time := jsToFixed 3 (0 + 0), calls := 1, drawCalls := 3 })],
    instructions := [⟨0, "batch", 0⟩],
    drawOrder := [{ pipe := "batch", drawCalls := 3, time := jsToFixed 3 0 }] }

/-- C7 witness: the theorem instantiated on the concrete two-stage
capture. -/
theorem c7_pipeTimings_no_zero_calls_witness :
    (capture envTwoPipes false [⟨"batch", 3, false, 0⟩] 0 0).outcome = .ok resTwoPipes ∧
    ∀ kv ∈ resTwoPipes.pipeTimings, 0 < kv.2.calls :=
  ⟨rfl, c7_pipeTimings_no_zero_calls envTwoPipes false [⟨"batch", 3, false, 0⟩] 0 0
    resTwoPipes rfl⟩

end PixiCli
